import Mathlib

/-!
Verification development for the Streamlit stock-analysis dashboard
(`financial_agent.py`): a shallow embedding of the symbol resolver
(`get_symbol_from_name`), the data fetcher (`get_stock_data`) and the
session-state handling in `main` (watchlist add/remove, the Analyze cycle
and the analysis history), together with theorems settling the spec's
claims about them.

Modelling conventions:
- Python `str.upper()` is modelled as per-character ASCII uppercasing
  (`pyUpper`); all table entries and claim-relevant inputs are ASCII.
- The external yfinance provider is a parameter: `tickerInfo : String → YfInfo`
  models `yf.Ticker(q).info`, which either raises or returns a dict whose
  truthiness and optional `'symbol'` field are the only parts the code reads;
  `history : String → String → Option PriceHist` models
  `stock.history(period=...)`, `none` meaning the call raised.
- `st.error` calls are modelled as messages accumulated in the result;
  Python exceptions caught by the code are modelled by the corresponding
  `raises` constructors, so every embedded function is total: an error
  surfaces as a message plus an error-shaped return value, never as
  nontermination or a thrown exception.
-/

/-- Result of accessing `yf.Ticker(q).info`: the access either raises, or
yields a dict of which the code only ever reads its truthiness
(`if info and ...`, line 296) and its `'symbol'` entry (`'symbol' in info`,
`info['symbol']`, lines 144-153). -/
structure InfoDict where
  truthy : Bool
  symbolField : Option String
deriving DecidableEq, Repr

/-- Outcome of one `yf.Ticker(q).info` access. -/
inductive YfInfo where
  | raises : YfInfo
  | ok : InfoDict → YfInfo
deriving DecidableEq, Repr

/-- A daily OHLCV price series as returned by `stock.history(period=p)`;
the only attribute the claims mention is the trailing window it covers,
which for an honestly behaving provider is the requested period string. -/
structure PriceHist where
  span : String
deriving DecidableEq, Repr

/-- The external market-data provider as seen by the code: `.info` accesses
and `history(symbol, period)` calls (`none` models a raised exception). -/
structure YfEnv where
  tickerInfo : String → YfInfo
  history : String → String → Option PriceHist

/-- The static name→ticker lookup table `COMMON_STOCKS`
(financial_agent.py lines 17-28), in source order. -/
def COMMON_STOCKS : List (String × String) :=
  [("NVIDIA", "NVDA"),
   ("APPLE", "AAPL"),
   ("GOOGLE", "GOOGL"),
   ("MICROSOFT", "MSFT"),
   ("TESLA", "TSLA"),
   ("TCS", "TCS.NS"),
   ("RELIANCE", "RELIANCE.NS"),
   ("INFOSYS", "INFY.NS"),
   ("WIPRO", "WIPRO.NS"),
   ("HDFC", "HDFCBANK.NS")]

/-- Python dict lookup `d[key]` / `key in d` on an association list
(first entry with the key wins, as in a Python dict). -/
def dictLookup : List (String × String) → String → Option String
  | [], _ => none
  | (k, v) :: rest, key => if key = k then some v else dictLookup rest key

/-- Python `str.upper()`, restricted to ASCII case mapping (all strings the
program compares against are ASCII). -/
def pyUpper (s : String) : String := ⟨s.data.map Char.toUpper⟩

/-- The values list `[symbol for symbol in COMMON_STOCKS.values()]`
(line 131). -/
def commonStockValues : List String := COMMON_STOCKS.map Prod.snd

/-- Instrumented result of one `get_symbol_from_name` call: the returned
symbol (`none` = Python `None`), the provider queries issued (strings whose
`yf.Ticker(...).info` was accessed), and the `st.error` messages emitted. -/
structure ResolveOut where
  result : Option String
  queries : List String
  msgs : List String
deriving DecidableEq, Repr

/-- Steps 4-5 of `get_symbol_from_name` (lines 149-158): query the provider
with the raw input as-is; return `info['symbol']` when present; otherwise
report not-found; a raised exception is caught by the outer handler
(lines 157-159) which emits a message and returns `None`. -/
def resolveStep4 (tickerInfo : String → YfInfo) (stock_name indian_symbol : String) :
    ResolveOut :=
  match tickerInfo stock_name with
  | .ok d =>
    match d.symbolField with
    | some v =>
      { result := some v, queries := [indian_symbol, stock_name], msgs := [] }
    | none =>
      { result := none, queries := [indian_symbol, stock_name],
        msgs := ["Stock symbol not found for " ++ stock_name] }
  | .raises =>
    { result := none, queries := [indian_symbol, stock_name],
      msgs := ["Error finding symbol for " ++ stock_name] }

/-- Shallow embedding of `get_symbol_from_name` (lines 127-159), instrumented
with the provider queries issued and the `st.error` messages emitted:
(1) if the upper-cased input is one of `COMMON_STOCKS`' values, return it
(lines 130-132); (2) if it is a key, return the mapped ticker (134-137);
(3) probe the provider with the upper-cased input plus `".NS"` and return
the probe string if the info dict has a `'symbol'` key, a raised exception
falling through via `except: pass` (139-147); (4)-(5) `resolveStep4`. -/
def get_symbol_from_nameT (tickerInfo : String → YfInfo) (stock_name : String) :
    ResolveOut :=
  let stock_upper := pyUpper stock_name
  if stock_upper ∈ commonStockValues then
    { result := some stock_upper, queries := [], msgs := [] }
  else
    match dictLookup COMMON_STOCKS stock_upper with
    | some mapped => { result := some mapped, queries := [], msgs := [] }
    | none =>
      let indian_symbol := stock_upper ++ ".NS"
      match tickerInfo indian_symbol with
      | .ok d =>
        if d.symbolField.isSome then
          { result := some indian_symbol, queries := [indian_symbol], msgs := [] }
        else resolveStep4 tickerInfo stock_name indian_symbol
      | .raises => resolveStep4 tickerInfo stock_name indian_symbol

/-- The symbol returned by `get_symbol_from_name` (its Python return value). -/
def get_symbol_from_name (tickerInfo : String → YfInfo) (stock_name : String) :
    Option String :=
  (get_symbol_from_nameT tickerInfo stock_name).result

/-- A provider on which every `.info` access raises and every history call
raises: the "network down" environment. -/
def deadEnv : YfEnv :=
  { tickerInfo := fun _ => .raises, history := fun _ _ => none }

/-- A provider that confirms every symbol query with a truthy info dict and
returns, for every history request, a series spanning exactly the requested
period. -/
def honestEnv : YfEnv :=
  { tickerInfo := fun _ => .ok { truthy := true, symbolField := some "SOME" },
    history := fun _ period => some { span := period } }

example : get_symbol_from_name deadEnv.tickerInfo "NVIDIA" = some "NVDA" := by decide
example : get_symbol_from_name deadEnv.tickerInfo "tcs" = some "TCS.NS" := by decide
example : get_symbol_from_name deadEnv.tickerInfo "nvda" = some "NVDA" := by decide
example : get_symbol_from_name deadEnv.tickerInfo "ZZZNOPE" = none := by decide
example : get_symbol_from_name honestEnv.tickerInfo "ZZZ" = some "ZZZ.NS" := by decide
example : (get_symbol_from_nameT deadEnv.tickerInfo " ").queries = [" .NS", " "] := by decide

/-- One entry of `st.session_state.analysis_history`, appended at lines
319-323: `{'symbol': ..., 'timestamp': datetime.now(), 'analysis_type': ...}`
(the wall-clock timestamp is abstracted as a `Nat` supplied to the cycle). -/
structure HistoryEntry where
  symbol : String
  timestamp : Nat
  analysis_type : String
deriving DecidableEq, Repr

/-- The mutable session state of `main`: `st.session_state.watchlist`
(a Python `set`, line 74) and `st.session_state.analysis_history`
(a list, line 75). -/
structure SessionState where
  watchlist : Finset String
  analysis_history : List HistoryEntry
deriving DecidableEq

/-- The state at session start (lines 72-75): empty watchlist, empty
history. -/
def initialState : SessionState := { watchlist := ∅, analysis_history := [] }

/-- Embedding of `get_stock_data` (lines 161-172): clear the cached info,
read `stock.info`, then request `stock.history(period="1y")` — the period
string is hardcoded to `"1y"` regardless of any UI selection; on any raised
exception the handler emits `st.error` and returns `(None, None)`.
Returns (info, hist, messages emitted). -/
def get_stock_data (env : YfEnv) (symbol : String) :
    Option InfoDict × Option PriceHist × List String :=
  match env.tickerInfo symbol with
  | .raises => (none, none, ["Error fetching stock data"])
  | .ok d =>
    match env.history symbol "1y" with
    | none => (none, none, ["Error fetching stock data"])
    | some h => (some d, some h, [])

/-- How one Analyze cycle ended. -/
inductive CycleResult where
  | rejectedBlank       -- `if not stock_input` (lines 278-280)
  | symbolNotFound      -- resolver returned `None` (line 284 guard fails)
  | skippedFalsySymbol  -- resolver returned the falsy `""` (line 284 guard fails silently)
  | initFalsy           -- `initialize_agents()` returned a falsy value (287)
  | fetchFailed         -- `get_stock_data` raised, returned `(None, None)`
  | skippedFalsyInfo    -- fetch returned but `info` is falsy (line 296)
  | agentFailed         -- the agent call raised; caught at lines 335-336
  | completed           -- full cycle incl. history append (lines 319-323)
deriving DecidableEq, Repr

/-- Everything observable about one Analyze cycle: the session state after
it, how it ended, the `st.error` messages shown, the price history rendered
(if any), and every symbol string sent to the provider. -/
structure CycleOut where
  state : SessionState
  result : CycleResult
  msgs : List String
  histShown : Option PriceHist
  providerQueries : List String
deriving DecidableEq

/-- Embedding of the Analyze button handler in `main` (lines 277-336).
Parameters beyond the inputs: `initialized` is the session's
`agents_initialized` flag (note `initialize_agents` returns `None` — falsy —
when it is already set, so the body is skipped); `initOk` is whether agent
construction would succeed; `agentRaises` is whether the
`multi_ai_agent.print_response` call raises (caught by the handler at lines
335-336, which fires before the history append at 319-323 is reached);
`now` is the current timestamp. Line 284's `if stock_symbol:` is Python
truthiness: it fails both for `None` (symbolNotFound) and for an empty
returned string, which is skipped silently (skippedFalsySymbol). The
watchlist is never touched by this handler; the history is appended only on
a fully completed cycle; on a falsy info dict (line 296) nothing is
rendered. -/
def analyze (env : YfEnv) (initialized initOk agentRaises : Bool) (now : Nat)
    (s : SessionState) (stock_input analysis_type date_range : String) :
    CycleOut :=
  if stock_input = "" then
    { state := s, result := .rejectedBlank,
      msgs := ["Please enter a stock name or symbol."],
      histShown := none, providerQueries := [] }
  else
    let r := get_symbol_from_nameT env.tickerInfo stock_input
    match r.result with
    | none =>
      { state := s, result := .symbolNotFound, msgs := r.msgs,
        histShown := none, providerQueries := r.queries }
    | some stock_symbol =>
      if stock_symbol = "" then
        { state := s, result := .skippedFalsySymbol, msgs := r.msgs,
          histShown := none, providerQueries := r.queries }
      else if initialized then
        { state := s, result := .initFalsy, msgs := r.msgs,
          histShown := none, providerQueries := r.queries }
      else if !initOk then
        { state := s, result := .initFalsy,
          msgs := r.msgs ++ ["Error initializing agents"],
          histShown := none, providerQueries := r.queries }
      else
        match get_stock_data env stock_symbol with
        | (some info, some hist, _) =>
          if info.truthy then
            if agentRaises then
              { state := s, result := .agentFailed,
                msgs := r.msgs ++ ["An error occurred"],
                histShown := some hist,
                providerQueries := r.queries ++ [stock_symbol] }
            else
              { state := { s with analysis_history := s.analysis_history ++
                  [{ symbol := stock_symbol, timestamp := now,
                     analysis_type := analysis_type }] },
                result := .completed, msgs := r.msgs, histShown := some hist,
                providerQueries := r.queries ++ [stock_symbol] }
          else
            { state := s, result := .skippedFalsyInfo, msgs := r.msgs,
              histShown := none,
              providerQueries := r.queries ++ [stock_symbol] }
        | (_, _, m) =>
          { state := s, result := .fetchFailed, msgs := r.msgs ++ m,
            histShown := none, providerQueries := r.queries ++ [stock_symbol] }

/-- Embedding of the sidebar Add handler (lines 246-250): resolve the text;
the insert `st.session_state.watchlist.add(symbol)` is guarded by
`if symbol:` (line 249) — Python truthiness — so it is skipped both when the
resolver returned `None` and when it returned the falsy empty string. -/
def addToWatchlist (tickerInfo : String → YfInfo) (s : SessionState)
    (text : String) : SessionState :=
  match get_symbol_from_name tickerInfo text with
  | some symbol =>
    if symbol = "" then s
    else { s with watchlist := insert symbol s.watchlist }
  | none => s

/-- Embedding of the sidebar Remove loop (lines 253-259): a Remove button is
rendered only for symbols currently in the watchlist, so a remove click for
ticker `t` fires `watchlist.remove(t)` exactly when `t` is a member at
render time; a click naming any other ticker matches no rendered button and
does nothing. -/
def removeFromWatchlist (s : SessionState) (ticker : String) : SessionState :=
  if ticker ∈ s.watchlist then
    { s with watchlist := s.watchlist.erase ticker }
  else s

/-- A user action on the session: one press of Add, one Remove click, or one
Analyze cycle (carrying the provider behaviour observed during it). -/
inductive UAction where
  | addW (tickerInfo : String → YfInfo) (text : String) : UAction
  | removeW (ticker : String) : UAction
  | analyzeW (env : YfEnv) (initialized initOk agentRaises : Bool) (now : Nat)
      (stock_input analysis_type date_range : String) : UAction

/-- One step of the session: the Presentation Layer serialises actions, so a
session is a fold of steps from `initialState`. -/
def stepAction (s : SessionState) : UAction → SessionState
  | .addW tickerInfo text => addToWatchlist tickerInfo s text
  | .removeW ticker => removeFromWatchlist s ticker
  | .analyzeW env initialized initOk agentRaises now inp ty rng =>
    (analyze env initialized initOk agentRaises now s inp ty rng).state

/-- The session state after a sequence of user actions from start-up. -/
def runSession (acts : List UAction) : SessionState :=
  acts.foldl stepAction initialState

/-- The values actually returned by the Symbol Resolver during the Add
actions of a session trace: the resolver calls the program really made,
with the provider behaviour each call really observed — not a
hypothetical resolution under some other provider. -/
def resolvedDuring (acts : List UAction) : List String :=
  acts.filterMap fun a =>
    match a with
    | .addW tickerInfo text => get_symbol_from_name tickerInfo text
    | _ => none

example : (analyze deadEnv false true false 0 initialState "ZZZNOPE" "Technical Analysis" "1 Year").result = .symbolNotFound := by decide
example : (analyze honestEnv false true false 7 initialState "NVDA" "Technical Analysis" "1 Month").result = .completed := by decide
example : (analyze honestEnv false true false 7 initialState "NVDA" "Technical Analysis" "1 Month").histShown = some { span := "1y" } := by decide

/-- Spec-side step 1 (refinement reference, following the spec's words):
"if the upper-cased input equals a value of the static lookup table,
return it". -/
def specStep1 (raw : String) : Option String :=
  if pyUpper raw ∈ commonStockValues then some (pyUpper raw) else none

/-- Spec-side step 2: "if the upper-cased input is a key of the table,
return the mapped ticker". -/
def specStep2 (raw : String) : Option String :=
  dictLookup COMMON_STOCKS (pyUpper raw)

/-- Spec-side notion of "the provider confirms a symbol" for a query:
the info access succeeds and the dict carries a `'symbol'` field; a
provider error counts as no confirmation. -/
def specConfirms (tickerInfo : String → YfInfo) (q : String) : Bool :=
  match tickerInfo q with
  | .ok d => d.symbolField.isSome
  | .raises => false

/-- Spec-side step 3: "probe the provider with the upper-cased input plus
the Indian-exchange suffix `.NS` and return that probe string if the
provider confirms a symbol" (provider errors = no match). -/
def specStep3 (tickerInfo : String → YfInfo) (raw : String) : Option String :=
  if specConfirms tickerInfo (pyUpper raw ++ ".NS") then
    some (pyUpper raw ++ ".NS")
  else none

/-- Spec-side step 4: "query the provider with the raw input as-is and
return the provider's symbol field if present" (provider errors = no
match). -/
def specStep4 (tickerInfo : String → YfInfo) (raw : String) : Option String :=
  match tickerInfo raw with
  | .ok d => d.symbolField
  | .raises => none

/-- Spec-side resolver: the four steps tried in order, first affirmative
answer wins, `none` when all fail. -/
def resolveSpec (tickerInfo : String → YfInfo) (raw : String) : Option String :=
  (specStep1 raw).orElse fun _ =>
  (specStep2 raw).orElse fun _ =>
  (specStep3 tickerInfo raw).orElse fun _ =>
  specStep4 tickerInfo raw

/-- Spec-side list of provider queries: none when steps 1-2 answer, the
probe alone when step 3 confirms it, and probe then raw input otherwise —
each step is reached only after all earlier ones declined, and is never
revisited. -/
def resolveSpecQueries (tickerInfo : String → YfInfo) (raw : String) :
    List String :=
  if (specStep1 raw).isSome then []
  else if (specStep2 raw).isSome then []
  else if (specStep3 tickerInfo raw).isSome then [pyUpper raw ++ ".NS"]
  else [pyUpper raw ++ ".NS", raw]

/-- Keys of `COMMON_STOCKS` are disjoint from its values: a successful key
lookup implies the string is not in the value set. -/
lemma dictLookup_key_not_value (k : String)
    (h : (dictLookup COMMON_STOCKS k).isSome) : k ∉ commonStockValues := by
  simp only [COMMON_STOCKS, dictLookup] at h
  repeat' split at h
  all_goals simp_all [commonStockValues, COMMON_STOCKS]

/-- When the upper-cased input is in the value set, the resolver answers at
step 1: it returns the upper-cased input, queries nothing, emits nothing. -/
lemma resolve_step1_eq (tickerInfo : String → YfInfo) (s : String)
    (h : pyUpper s ∈ commonStockValues) :
    get_symbol_from_nameT tickerInfo s =
      { result := some (pyUpper s), queries := [], msgs := [] } := by
  simp only [get_symbol_from_nameT, if_pos h]

/-- When the upper-cased input is a key (and not a value), the resolver
answers at step 2 with the mapped ticker, querying nothing. -/
lemma resolve_step2_eq (tickerInfo : String → YfInfo) (s t : String)
    (h1 : pyUpper s ∉ commonStockValues)
    (h2 : dictLookup COMMON_STOCKS (pyUpper s) = some t) :
    get_symbol_from_nameT tickerInfo s =
      { result := some t, queries := [], msgs := [] } := by
  simp only [get_symbol_from_nameT, if_neg h1, h2]

/-- C2: for every provider behaviour and every input string,
`get_symbol_from_name` returns exactly what the spec's ordered
first-match-wins chain (steps 1-5) returns, and issues exactly the provider
queries that chain prescribes — so the steps are tried in order, the first
affirmative answer is final, provider errors in steps 3-4 count as no
match, and all-fail yields `none` without throwing. -/
theorem C2_resolution_order (tickerInfo : String → YfInfo) (raw : String) :
    get_symbol_from_name tickerInfo raw = resolveSpec tickerInfo raw ∧
    (get_symbol_from_nameT tickerInfo raw).queries =
      resolveSpecQueries tickerInfo raw := by
  constructor <;>
  · simp only [get_symbol_from_name, get_symbol_from_nameT, resolveStep4,
      resolveSpec, resolveSpecQueries, specStep1, specStep2, specStep3,
      specStep4, specConfirms]
    repeat' split
    all_goals simp_all [Option.orElse]

/-- Every value in the lookup table is already fully upper-cased. -/
lemma value_pyUpper_fixed (t : String) (ht : t ∈ commonStockValues) :
    pyUpper t = t := by
  simp only [commonStockValues, COMMON_STOCKS, List.map_cons, List.map_nil,
    List.mem_cons, List.not_mem_nil, or_false] at ht
  rcases ht with rfl | rfl | rfl | rfl | rfl | rfl | rfl | rfl | rfl | rfl <;>
    decide

/-- C4: any letter-case variant of a ticker in the table's value set
resolves to that ticker unchanged, for every provider behaviour — including
tickers that already carry an exchange suffix such as `"TCS.NS"`. A
letter-case variant `s` of `t` is a string with the same upper-casing. -/
theorem C4_value_case_variants (t : String) (ht : t ∈ commonStockValues)
    (s : String) (hs : pyUpper s = pyUpper t)
    (tickerInfo : String → YfInfo) :
    get_symbol_from_name tickerInfo s = some t := by
  have htt : pyUpper t = t := value_pyUpper_fixed t ht
  have hmem : pyUpper s ∈ commonStockValues := by rw [hs, htt]; exact ht
  rw [get_symbol_from_name, resolve_step1_eq tickerInfo s hmem]
  simp [hs, htt]

/-- C4 witness: the already-suffixed ticker `"TCS.NS"`, entered in lower
case, resolves to itself even when the provider is down. -/
theorem C4_witness :
    ("TCS.NS" ∈ commonStockValues ∧ pyUpper "tcs.ns" = pyUpper "TCS.NS") ∧
    get_symbol_from_name deadEnv.tickerInfo "tcs.ns" = some "TCS.NS" :=
  ⟨⟨by decide, by decide⟩,
   C4_value_case_variants "TCS.NS" (by decide) "tcs.ns" (by decide)
     deadEnv.tickerInfo⟩

/-- C5: whenever the upper-cased input is a key of the lookup table, the
resolver returns the mapped ticker, for every provider behaviour; in
particular `"NVIDIA"` resolves to `"NVDA"` and `"TCS"` to `"TCS.NS"`. -/
theorem C5_key_lookup :
    (∀ (n t : String) (tickerInfo : String → YfInfo),
      dictLookup COMMON_STOCKS (pyUpper n) = some t →
      get_symbol_from_name tickerInfo n = some t) ∧
    (∀ tickerInfo, get_symbol_from_name tickerInfo "NVIDIA" = some "NVDA") ∧
    (∀ tickerInfo, get_symbol_from_name tickerInfo "TCS" = some "TCS.NS") := by
  have key : ∀ (n t : String) (tickerInfo : String → YfInfo),
      dictLookup COMMON_STOCKS (pyUpper n) = some t →
      get_symbol_from_name tickerInfo n = some t := by
    intro n t tickerInfo h
    have hnv : pyUpper n ∉ commonStockValues :=
      dictLookup_key_not_value (pyUpper n) (by simp [h])
    rw [get_symbol_from_name, resolve_step2_eq tickerInfo n t hnv h]
  exact ⟨key,
    fun tickerInfo => key "NVIDIA" "NVDA" tickerInfo (by decide),
    fun tickerInfo => key "TCS" "TCS.NS" tickerInfo (by decide)⟩

/-- C5 witness: `"google"` is a key of the table (up-cased) and resolves to
`"GOOGL"` with the provider down. -/
theorem C5_witness :
    dictLookup COMMON_STOCKS (pyUpper "google") = some "GOOGL" ∧
    get_symbol_from_name deadEnv.tickerInfo "google" = some "GOOGL" :=
  ⟨by decide, C5_key_lookup.1 "google" "GOOGL" deadEnv.tickerInfo (by decide)⟩

/-- C10: for inputs whose upper-casing is a key or a value of the static
table, the resolver issues no provider query at all and its result is
identical under any two provider behaviours: steps 1-2 decide before the
provider is consulted. -/
theorem C10_table_hits_provider_independent (s : String)
    (h : (dictLookup COMMON_STOCKS (pyUpper s)).isSome ∨
         pyUpper s ∈ commonStockValues) :
    (∀ tickerInfo, (get_symbol_from_nameT tickerInfo s).queries = []) ∧
    (∀ ti1 ti2, get_symbol_from_name ti1 s = get_symbol_from_name ti2 s) := by
  by_cases hv : pyUpper s ∈ commonStockValues
  · constructor
    · intro tickerInfo; rw [resolve_step1_eq tickerInfo s hv]
    · intro ti1 ti2
      rw [get_symbol_from_name, get_symbol_from_name,
        resolve_step1_eq ti1 s hv, resolve_step1_eq ti2 s hv]
  · rcases h with h | h
    · rcases hl : dictLookup COMMON_STOCKS (pyUpper s) with _ | t
      · rw [hl] at h; simp at h
      · constructor
        · intro tickerInfo; rw [resolve_step2_eq tickerInfo s t hv hl]
        · intro ti1 ti2
          rw [get_symbol_from_name, get_symbol_from_name,
            resolve_step2_eq ti1 s t hv hl, resolve_step2_eq ti2 s t hv hl]
    · exact absurd h hv

/-- C10 witness: `"apple"` is a table key; the dead provider and the
all-confirming provider issue no query and agree on the result. -/
theorem C10_witness :
    ((dictLookup COMMON_STOCKS (pyUpper "apple")).isSome ∨
      pyUpper "apple" ∈ commonStockValues) ∧
    (get_symbol_from_nameT deadEnv.tickerInfo "apple").queries = [] ∧
    get_symbol_from_name deadEnv.tickerInfo "apple" =
      get_symbol_from_name honestEnv.tickerInfo "apple" :=
  ⟨Or.inl (by decide),
   (C10_table_hits_provider_independent "apple" (Or.inl (by decide))).1
     deadEnv.tickerInfo,
   (C10_table_hits_provider_independent "apple" (Or.inl (by decide))).2
     deadEnv.tickerInfo honestEnv.tickerInfo⟩

/-- C7: a remove click naming a ticker not in the watchlist is a no-op: no
button for it was rendered, nothing fires, the state (watchlist and
history alike) is unchanged, and no error is raised (the embedding is a
total function). -/
theorem C7_remove_absent_noop (s : SessionState) (ticker : String)
    (h : ticker ∉ s.watchlist) : removeFromWatchlist s ticker = s := by
  simp [removeFromWatchlist, h]

/-- C7 witness: removing `"TSLA"` from a watchlist holding only `"NVDA"`
changes nothing. -/
theorem C7_witness :
    "TSLA" ∉ ({"NVDA"} : Finset String) ∧
    removeFromWatchlist
        { watchlist := {"NVDA"}, analysis_history := [] } "TSLA" =
      { watchlist := {"NVDA"}, analysis_history := [] } :=
  ⟨by decide,
   C7_remove_absent_noop
     { watchlist := {"NVDA"}, analysis_history := [] } "TSLA" (by decide)⟩

/-- A provider that raises on every query except `"ZZZ"`, for which it
returns a truthy info dict whose `'symbol'` field is the empty string — the
resolver's step 4 then returns `info['symbol']` verbatim, i.e. `""`. -/
def emptySymbolEnv : YfEnv :=
  { tickerInfo := fun q =>
      if q = "ZZZ" then .ok { truthy := true, symbolField := some "" }
      else .raises,
    history := fun _ _ => none }

/-- C8 counterexample: the resolver maps `"ZZZ"` to the ticker `""` (some
result, so the claim's premise holds), but after adding it twice the
watchlist does not contain it exactly once — it contains it zero times,
because the `if symbol:` truthiness guard at line 249 skips the falsy
insert entirely. -/
theorem C8_counterexample :
    get_symbol_from_name emptySymbolEnv.tickerInfo "ZZZ" = some "" ∧
    "" ∉ (addToWatchlist emptySymbolEnv.tickerInfo
        (addToWatchlist emptySymbolEnv.tickerInfo initialState "ZZZ")
        "ZZZ").watchlist ∧
    (addToWatchlist emptySymbolEnv.tickerInfo
        (addToWatchlist emptySymbolEnv.tickerInfo initialState "ZZZ")
        "ZZZ").watchlist.val.count "" ≠ 1 := by
  refine ⟨by decide, by decide, by decide⟩

/-- C8 amended: adding two inputs that resolve to the same nonempty ticker
leaves the watchlist containing that ticker exactly once (multiplicity 1 in
the underlying multiset), and the second add leaves the state exactly as
the first add left it; a resolver result of the falsy `""` is instead
skipped by the `if symbol:` guard and never inserted. -/
theorem C8_add_idempotent (ti1 ti2 : String → YfInfo) (s : SessionState)
    (i1 i2 t : String)
    (h1 : get_symbol_from_name ti1 i1 = some t)
    (h2 : get_symbol_from_name ti2 i2 = some t)
    (ht : t ≠ "") :
    addToWatchlist ti2 (addToWatchlist ti1 s i1) i2 = addToWatchlist ti1 s i1 ∧
    t ∈ (addToWatchlist ti2 (addToWatchlist ti1 s i1) i2).watchlist ∧
    (addToWatchlist ti2 (addToWatchlist ti1 s i1) i2).watchlist.val.count t
      = 1 := by
  have hs1 : addToWatchlist ti1 s i1 =
      { s with watchlist := insert t s.watchlist } := by
    simp [addToWatchlist, h1, ht]
  have hs2 : addToWatchlist ti2 (addToWatchlist ti1 s i1) i2 =
      addToWatchlist ti1 s i1 := by
    rw [hs1]
    simp [addToWatchlist, h2, ht, Finset.insert_idem]
  refine ⟨hs2, ?_, ?_⟩
  · rw [hs2, hs1]; exact Finset.mem_insert_self t s.watchlist
  · rw [hs2, hs1]
    exact Multiset.count_eq_one_of_mem (insert t s.watchlist).nodup
      (Finset.mem_val.mpr (Finset.mem_insert_self t s.watchlist))

/-- C8 witness: adding `"RELIANCE"` and then `"reliance"` (both resolving
to the nonempty ticker `"RELIANCE.NS"`) from the empty session leaves the
resolved ticker in the watchlist exactly once and the second add changes
nothing. -/
theorem C8_witness :
    (get_symbol_from_name deadEnv.tickerInfo "RELIANCE" = some "RELIANCE.NS" ∧
     get_symbol_from_name deadEnv.tickerInfo "reliance" = some "RELIANCE.NS" ∧
     ("RELIANCE.NS" : String) ≠ "") ∧
    (addToWatchlist deadEnv.tickerInfo
        (addToWatchlist deadEnv.tickerInfo initialState "RELIANCE")
        "reliance" =
      addToWatchlist deadEnv.tickerInfo initialState "RELIANCE" ∧
     "RELIANCE.NS" ∈ (addToWatchlist deadEnv.tickerInfo
        (addToWatchlist deadEnv.tickerInfo initialState "RELIANCE")
        "reliance").watchlist ∧
     (addToWatchlist deadEnv.tickerInfo
        (addToWatchlist deadEnv.tickerInfo initialState "RELIANCE")
        "reliance").watchlist.val.count "RELIANCE.NS" = 1) :=
  ⟨⟨by decide, by decide, by decide⟩,
   C8_add_idempotent deadEnv.tickerInfo deadEnv.tickerInfo initialState
     "RELIANCE" "reliance" "RELIANCE.NS" (by decide) (by decide) (by decide)⟩

/-- The resolver either returns a symbol, or has emitted exactly one
`st.error` message (line 155 or line 158). -/
lemma resolver_shape (tickerInfo : String → YfInfo) (n : String) :
    (get_symbol_from_nameT tickerInfo n).result.isSome = true ∨
    (get_symbol_from_nameT tickerInfo n).msgs =
      ["Stock symbol not found for " ++ n] ∨
    (get_symbol_from_nameT tickerInfo n).msgs =
      ["Error finding symbol for " ++ n] := by
  unfold get_symbol_from_nameT
  by_cases h1 : pyUpper n ∈ commonStockValues
  · simp [h1]
  · simp only [if_neg h1]
    cases dictLookup COMMON_STOCKS (pyUpper n) with
    | some m => simp
    | none =>
      have h4 : (resolveStep4 tickerInfo n (pyUpper n ++ ".NS")).result.isSome
          = true ∨
          (resolveStep4 tickerInfo n (pyUpper n ++ ".NS")).msgs =
            ["Stock symbol not found for " ++ n] ∨
          (resolveStep4 tickerInfo n (pyUpper n ++ ".NS")).msgs =
            ["Error finding symbol for " ++ n] := by
        unfold resolveStep4
        cases tickerInfo n with
        | raises => simp
        | ok d => rcases hd : d.symbolField with _ | v <;> simp [hd]
      cases tickerInfo (pyUpper n ++ ".NS") with
      | raises => exact h4
      | ok d =>
        by_cases hs : d.symbolField.isSome
        · simp [hs]
        · simp only [hs, Bool.false_eq_true, if_false]
          exact h4

/-- Whenever the resolver returns `None`, it has emitted an `st.error`
message. -/
lemma resolver_result_none_msgs (tickerInfo : String → YfInfo) (n : String)
    (h : (get_symbol_from_nameT tickerInfo n).result = none) :
    (get_symbol_from_nameT tickerInfo n).msgs ≠ [] := by
  rcases resolver_shape tickerInfo n with hs | hm | hm
  · rw [h] at hs; simp at hs
  · rw [hm]; simp
  · rw [hm]; simp

/-- `get_stock_data` either returns both info and history with no message,
or returns `(None, None)` having emitted the fetch error message. -/
lemma get_stock_data_cases (env : YfEnv) (sym : String) :
    (∃ d h, get_stock_data env sym = (some d, some h, [])) ∨
    get_stock_data env sym = (none, none, ["Error fetching stock data"]) := by
  unfold get_stock_data
  cases env.tickerInfo sym with
  | raises => right; rfl
  | ok d =>
    cases env.history sym "1y" with
    | none => right; rfl
    | some h => left; exact ⟨d, h, rfl⟩

/-- C1: every Analyze cycle that fails because the resolver found no symbol,
the data fetch raised, or the agent call raised, returns normally with the
session state (watchlist and analysis history) exactly as it was before the
cycle, and at least one user-visible error message — never an uncaught
exception or process termination (the embedding is a total function whose
error paths carry messages). -/
theorem C1_failed_cycle_preserves_state
    (env : YfEnv) (initialized initOk agentRaises : Bool) (now : Nat)
    (s : SessionState) (stock_input analysis_type date_range : String)
    (h : (analyze env initialized initOk agentRaises now s stock_input
            analysis_type date_range).result = .symbolNotFound ∨
         (analyze env initialized initOk agentRaises now s stock_input
            analysis_type date_range).result = .fetchFailed ∨
         (analyze env initialized initOk agentRaises now s stock_input
            analysis_type date_range).result = .agentFailed) :
    (analyze env initialized initOk agentRaises now s stock_input
       analysis_type date_range).state = s ∧
    (analyze env initialized initOk agentRaises now s stock_input
       analysis_type date_range).msgs ≠ [] := by
  by_cases hb : stock_input = ""
  · exfalso
    simp only [analyze, if_pos hb] at h
    rcases h with h | h | h <;> simp at h
  · simp only [analyze, if_neg hb] at h ⊢
    rcases hr : (get_symbol_from_nameT env.tickerInfo stock_input).result
      with _ | sym
    · simp only [hr] at h ⊢
      exact ⟨by trivial, resolver_result_none_msgs env.tickerInfo stock_input hr⟩
    · simp only [hr] at h ⊢
      by_cases hsym : sym = ""
      · exfalso
        simp only [if_pos hsym] at h
        rcases h with h | h | h <;> simp at h
      · simp only [if_neg hsym] at h ⊢
        by_cases hi : initialized
        · exfalso
          simp only [if_pos hi] at h
          rcases h with h | h | h <;> simp at h
        · simp only [if_neg hi] at h ⊢
          cases initOk with
          | false => simp at h
          | true =>
            simp only [Bool.not_true, Bool.false_eq_true, if_false] at h ⊢
            rcases get_stock_data_cases env sym with ⟨d0, h0, hgd⟩ | hgd <;>
              simp only [hgd] at h ⊢
            · cases htr : d0.truthy with
              | false => simp only [htr] at h; simp at h
              | true =>
                simp only [htr] at h ⊢
                cases agentRaises with
                | false => simp at h
                | true => exact ⟨by trivial, by simp⟩
            · exact ⟨by trivial, by simp⟩

/-- C1 witness: with the provider down and input `"ZZZNOPE"`, the cycle
fails with symbol-not-found, leaves the fresh session state untouched and
shows a message. -/
theorem C1_witness :
    ((analyze deadEnv false true false 0 initialState "ZZZNOPE"
        "Technical Analysis" "1 Year").result = .symbolNotFound ∨
     (analyze deadEnv false true false 0 initialState "ZZZNOPE"
        "Technical Analysis" "1 Year").result = .fetchFailed ∨
     (analyze deadEnv false true false 0 initialState "ZZZNOPE"
        "Technical Analysis" "1 Year").result = .agentFailed) ∧
    ((analyze deadEnv false true false 0 initialState "ZZZNOPE"
        "Technical Analysis" "1 Year").state = initialState ∧
     (analyze deadEnv false true false 0 initialState "ZZZNOPE"
        "Technical Analysis" "1 Year").msgs ≠ []) :=
  ⟨Or.inl (by decide),
   C1_failed_cycle_preserves_state deadEnv false true false 0 initialState
     "ZZZNOPE" "Technical Analysis" "1 Year" (Or.inl (by decide))⟩

/-- C6 counterexample: the whitespace-only input `" "` is truthy in Python,
so the Analyze handler's `if not stock_input` guard does not reject it; it
reaches the resolver, which queries the provider twice (the `.NS` probe and
the raw input). -/
theorem C6_counterexample :
    (analyze deadEnv false true false 0 initialState " "
       "Technical Analysis" "1 Year").result ≠ .rejectedBlank ∧
    (analyze deadEnv false true false 0 initialState " "
       "Technical Analysis" "1 Year").providerQueries = [" .NS", " "] ∧
    ([" .NS", " "] : List String) ≠ [] := by
  refine ⟨by decide, by decide, by decide⟩

/-- C6 amended: only the genuinely empty input is rejected before
resolution — for `stock_input = ""` the cycle stops at the blank guard with
a message, the session state unchanged, and no provider query issued
(whitespace-only inputs instead proceed to resolution, as the
counterexample shows). -/
theorem C6_amended_empty_rejected (env : YfEnv)
    (initialized initOk agentRaises : Bool) (now : Nat) (s : SessionState)
    (analysis_type date_range : String) :
    (analyze env initialized initOk agentRaises now s "" analysis_type
       date_range).result = .rejectedBlank ∧
    (analyze env initialized initOk agentRaises now s "" analysis_type
       date_range).providerQueries = [] ∧
    (analyze env initialized initOk agentRaises now s "" analysis_type
       date_range).state = s := by
  refine ⟨?_, ?_, ?_⟩ <;> simp [analyze]

/-- The trailing span, in the provider's period vocabulary, that each UI
time-range label of the selectbox (line 272-275) denotes. -/
def windowSpan (date_range : String) : Option String :=
  if date_range = "1 Month" then some "1mo"
  else if date_range = "3 Months" then some "3mo"
  else if date_range = "6 Months" then some "6mo"
  else if date_range = "1 Year" then some "1y"
  else if date_range = "5 Years" then some "5y"
  else none

/-- C3 fails on the code: `get_stock_data` hardcodes `period="1y"`
(line 168) and `main` never passes the `date_range` selection to it, so
with an honestly behaving provider the rendered history spans one year for
every selected time range; for the selection `"1 Month"` the requested
window is `"1mo"`, not the `"1y"` actually fetched. -/
theorem C3_period_hardcoded :
    (∀ date_range analysis_type now,
      (analyze honestEnv false true false now initialState "NVDA"
        analysis_type date_range).histShown = some { span := "1y" } ∨
      (analyze honestEnv false true false now initialState "NVDA"
        analysis_type date_range).result = .rejectedBlank) ∧
    (analyze honestEnv false true false 0 initialState "NVDA"
       "Technical Analysis" "1 Month").histShown = some { span := "1y" } ∧
    windowSpan "1 Month" = some "1mo" ∧
    (some { span := "1mo" } : Option PriceHist) ≠ some { span := "1y" } := by
  refine ⟨?_, by decide, by decide, by decide⟩
  intro date_range analysis_type now
  left
  rfl

/-- An Analyze cycle never modifies the watchlist: only the history is ever
appended to. -/
lemma analyze_watchlist_unchanged (env : YfEnv)
    (initialized initOk agentRaises : Bool) (now : Nat) (s : SessionState)
    (stock_input analysis_type date_range : String) :
    (analyze env initialized initOk agentRaises now s stock_input
       analysis_type date_range).state.watchlist = s.watchlist := by
  by_cases hb : stock_input = ""
  · simp [analyze, hb]
  · simp only [analyze, if_neg hb]
    rcases hr : (get_symbol_from_nameT env.tickerInfo stock_input).result
      with _ | sym <;> simp only [hr]
    by_cases hsym : sym = ""
    · simp [if_pos hsym]
    · simp only [if_neg hsym]
      by_cases hi : initialized
      · simp [if_pos hi]
      · simp only [if_neg hi]
        cases initOk with
        | false => simp
        | true =>
          simp only [Bool.not_true, Bool.false_eq_true, if_false]
          rcases get_stock_data_cases env sym with ⟨d0, h0, hgd⟩ | hgd <;>
            simp only [hgd]
          cases htr : d0.truthy with
          | false => simp [htr]
          | true =>
            simp only [htr]
            cases agentRaises with
            | false => simp
            | true => simp

/-- Extending a trace at the front can only enlarge the set of values the
session's resolve calls returned. -/
lemma resolvedDuring_cons (a : UAction) (rest : List UAction) (x : String)
    (hx : x ∈ resolvedDuring rest) : x ∈ resolvedDuring (a :: rest) := by
  cases a with
  | addW tickerInfo text =>
    simp only [resolvedDuring, List.filterMap_cons] at hx ⊢
    rcases hres : get_symbol_from_name tickerInfo text with _ | v
    · exact hx
    · exact List.mem_cons_of_mem v hx
  | removeW t =>
    simpa only [resolvedDuring, List.filterMap_cons] using hx
  | analyzeW env initialized initOk agentRaises now inp ty rng =>
    simpa only [resolvedDuring, List.filterMap_cons] using hx

/-- Any watchlist member after folding a trace was either already present or
was returned by one of the trace's own resolve calls. -/
lemma mem_watchlist_foldl (acts : List UAction) :
    ∀ (s : SessionState) (x : String),
      x ∈ (acts.foldl stepAction s).watchlist →
      x ∈ s.watchlist ∨ x ∈ resolvedDuring acts := by
  induction acts with
  | nil => intro s x hx; left; simpa using hx
  | cons a rest ih =>
    intro s x hx
    simp only [List.foldl_cons] at hx
    rcases ih (stepAction s a) x hx with hmem | hres
    · cases a with
      | addW tickerInfo text =>
        simp only [stepAction, addToWatchlist] at hmem
        rcases hr : get_symbol_from_name tickerInfo text with _ | sym
        · rw [hr] at hmem
          left; exact hmem
        · rw [hr] at hmem
          simp only at hmem
          by_cases hsym : sym = ""
          · rw [if_pos hsym] at hmem
            left; exact hmem
          · rw [if_neg hsym] at hmem
            rcases Finset.mem_insert.mp hmem with rfl | h2
            · right
              simp [resolvedDuring, List.filterMap_cons, hr]
            · left; exact h2
      | removeW t =>
        simp only [stepAction, removeFromWatchlist] at hmem
        by_cases ht : t ∈ s.watchlist
        · rw [if_pos ht] at hmem
          left; exact Finset.mem_of_mem_erase hmem
        · rw [if_neg ht] at hmem
          left; exact hmem
      | analyzeW env initialized initOk agentRaises now inp ty rng =>
        simp only [stepAction] at hmem
        rw [analyze_watchlist_unchanged] at hmem
        left; exact hmem
    · right; exact resolvedDuring_cons a rest x hres

/-- C9: in every reachable session state, every watchlist element is a
value that one of the session's own resolve calls actually returned
(`resolvedDuring` collects exactly the resolver outputs of the trace's Add
actions, each under the provider behaviour that call observed) — so the
watchlist never holds raw text no resolver call returned — and the
invariant is preserved by every add, remove and analyze action, the proof
being an induction over all traces. -/
theorem C9_watchlist_only_resolved (acts : List UAction) (x : String)
    (hx : x ∈ (runSession acts).watchlist) : x ∈ resolvedDuring acts := by
  rcases mem_watchlist_foldl acts initialState x hx with h | h
  · simp [initialState] at h
  · exact h

/-- C9 witness: after adding `"NVIDIA"` (provider down), `"NVDA"` is in the
watchlist and is among the values this very trace's resolve calls
returned. -/
theorem C9_witness :
    "NVDA" ∈ (runSession [UAction.addW deadEnv.tickerInfo "NVIDIA"]).watchlist
      ∧ "NVDA" ∈ resolvedDuring [UAction.addW deadEnv.tickerInfo "NVIDIA"] :=
  ⟨by decide,
   C9_watchlist_only_resolved [UAction.addW deadEnv.tickerInfo "NVIDIA"]
     "NVDA" (by decide)⟩
